import Mathlib

/-!
Shallow embedding of the order core of the `tbd` service (Go sources under
`internal/orders`, `internal/idempotency` and the in-memory/postgres adapters).

Modelling conventions:
* `time.Time` values are modelled as `Nat` instants; `time.Now().UTC()` calls
  become explicit `now : Nat` parameters.
* Go `error` results become `Option`/`Except` values; an operation whose Go
  implementation unconditionally returns a `nil` error is modelled as a total
  function (so "returns no error" is encoded by the type).
* Go maps (`map[string]T`) are modelled as association lists with unique keys,
  updated by `mapInsert` and read by `mapLookup`.
* `crypto/rand` order-id generation is modelled by passing the generated id as
  an explicit parameter; external collaborator outcomes (the event publisher,
  an injected store failure as in the test mocks) are likewise parameters.
* `[]byte` response bodies are modelled as `String`.
-/

inductive OrderStatus where
  | pending
  | processing
  | completed
  | failed
  | canceled
deriving DecidableEq, Repr

/-- Renders a status the way the Go string constants do. -/
def statusString : OrderStatus → String
  | .pending => "pending"
  | .processing => "processing"
  | .completed => "completed"
  | .failed => "failed"
  | .canceled => "canceled"

/-- Order mirrors `domain.Order`: id, customer email, amount in cents,
status and the two timestamps (modelled as `Nat`). -/
structure Order where
  id : String
  customerEmail : String
  amountCents : Int
  status : OrderStatus
  createdAt : Nat
  updatedAt : Nat
deriving DecidableEq, Repr

/-- Whitespace predicate used by `strings.TrimSpace` (restricted to the ASCII
whitespace characters relevant here). -/
def isSpaceChar (c : Char) : Bool :=
  c = ' ' || c = '\t' || c = '\n' || c = '\r'

/-- Model of Go's `strings.TrimSpace`: drop whitespace from both ends. -/
def trimSpace (s : String) : String :=
  ⟨((s.data.dropWhile isSpaceChar).reverse.dropWhile isSpaceChar).reverse⟩

/-- Model of Go's `strings.Contains(s, "@")` specialised to one character. -/
def containsChar (s : String) (c : Char) : Bool :=
  s.data.contains c

/-- Order.Validate from `domain/order.go`: empty (after TrimSpace) email,
email without an `@`, or non-positive amount are rejected; `some msg` models
the returned error, `none` a nil error. -/
def Order.validate (o : Order) : Option String :=
  if trimSpace o.customerEmail = "" then some "customer_email is required"
  else if ¬ containsChar o.customerEmail '@' then some "customer_email must be valid"
  else if o.amountCents ≤ 0 then some "amount_cents must be positive"
  else none

/-- Order.IsTerminal from `domain/order.go`. -/
def Order.isTerminal (o : Order) : Bool :=
  match o.status with
  | .completed | .failed | .canceled => true
  | _ => false

/-- Association-list update modelling a Go map write `m[k] = v`: the first
binding of `k` is replaced, otherwise the pair is appended. -/
def mapInsert {α : Type} (m : List (String × α)) (k : String) (v : α) :
    List (String × α) :=
  match m with
  | [] => [(k, v)]
  | (k', v') :: rest =>
      if k' = k then (k, v) :: rest else (k', v') :: mapInsert rest k v

/-- Association-list read modelling a Go map read `m[k]`. -/
def mapLookup {α : Type} (m : List (String × α)) (k : String) : Option α :=
  match m with
  | [] => none
  | (k', v) :: rest => if k' = k then some v else mapLookup rest k

/-- Number of bindings of a key in an association list. -/
def countKey {α : Type} (m : List (String × α)) (k : String) : Nat :=
  (m.filter (fun p => p.1 = k)).length

/-- State of the in-memory order repository (`memory.Repository.orders`). -/
abbrev RepoState := List (String × Order)

/-- Repository.Create from `memory/repository.go`: `r.orders[order.ID] = order;
return nil` — an unconditional map write, always a nil error, no conflict
check. -/
def memCreate (r : RepoState) (order : Order) : RepoState :=
  mapInsert r order.id order

/-- Repository.GetByID from `memory/repository.go`; `none` models
`ports.ErrNotFound`. -/
def memGetByID (r : RepoState) (id : String) : Option Order :=
  mapLookup r id

/-- Repository.UpdateStatus from `memory/repository.go`: `none` models
`ports.ErrNotFound`; otherwise the order's status is set unconditionally and
`updatedAt` refreshed. No terminal-state or legal-transition check is made. -/
def memUpdateStatus (r : RepoState) (id : String) (status : OrderStatus)
    (now : Nat) : Option RepoState :=
  match mapLookup r id with
  | none => none
  | some o => some (mapInsert r id { o with status := status, updatedAt := now })

/-- ListFilter from `ports/repository.go`. -/
structure ListFilter where
  status : Option OrderStatus
  page : Int
  pageSize : Int
deriving DecidableEq, Repr

/-- Page defaulting in both List implementations: `if page <= 0 { page = 1 }`. -/
def pageOrDefault (p : Int) : Int := if p ≤ 0 then 1 else p

/-- Page-size defaulting in both List implementations:
`if pageSize <= 0 { pageSize = 20 }`. -/
def pageSizeOrDefault (s : Int) : Int := if s ≤ 0 then 20 else s

/-- Status filtering shared by both List implementations: an order is kept
when no status predicate is set or its status matches. -/
def keepsStatus (f : Option OrderStatus) (o : Order) : Bool :=
  match f with
  | none => true
  | some s => o.status = s

/-- Single step of the ascending insertion sort modelling
`sort.Slice(result, func(i, j) { return result[i].CreatedAt.Before(result[j].CreatedAt) })`
in the in-memory List. -/
def insertByCreatedAt (o : Order) : List Order → List Order
  | [] => [o]
  | x :: xs =>
      if o.createdAt ≤ x.createdAt then o :: x :: xs
      else x :: insertByCreatedAt o xs

/-- Ascending sort by `createdAt` (oldest first), the order produced by the
in-memory Repository.List. Ties are broken by input position; the Go sort is
unstable over a nondeterministically ordered map, so tie order is arbitrary
there as well. -/
def sortByCreatedAt : List Order → List Order
  | [] => []
  | x :: xs => insertByCreatedAt x (sortByCreatedAt xs)

/-- Orders of the store passing the filter's status predicate, before sorting
and pagination, in store order. -/
def matchingOrders (r : RepoState) (f : Option OrderStatus) : List Order :=
  (r.map Prod.snd).filter (keepsStatus f)

/-- Repository.List from `memory/repository.go`: filter by status, sort by
`createdAt` ascending, default non-positive page to 1 and non-positive page
size to 20, then slice `[start:end]` with `start = (page-1)*pageSize`,
returning `[]` when `start >= len(result)`. The Go method unconditionally
returns a nil error; totality of this function encodes that. -/
def memList (r : RepoState) (f : ListFilter) : List Order :=
  let result := matchingOrders r f.status
  let sorted := sortByCreatedAt result
  let page := pageOrDefault f.page
  let pageSize := pageSizeOrDefault f.pageSize
  let start := (page - 1) * pageSize
  if start ≥ (sorted.length : Int) then []
  else (sorted.drop start.toNat).take pageSize.toNat

/-- Single step of the descending insertion sort modelling the
`ORDER BY created_at DESC` of the postgres Repository.List. -/
def insertByCreatedAtDesc (o : Order) : List Order → List Order
  | [] => [o]
  | x :: xs =>
      if x.createdAt ≤ o.createdAt then o :: x :: xs
      else x :: insertByCreatedAtDesc o xs

/-- Descending sort by `createdAt` (most recent first). -/
def sortByCreatedAtDesc : List Order → List Order
  | [] => []
  | x :: xs => insertByCreatedAtDesc x (sortByCreatedAtDesc xs)

/-- Repository.List of the postgres adapter, modelled from its SQL:
`WHERE ($1 IS NULL OR status = $1) ORDER BY created_at DESC LIMIT pageSize
OFFSET (page-1)*pageSize`, with the same page/pageSize defaulting as the
in-memory version. -/
def pgList (r : RepoState) (f : ListFilter) : List Order :=
  let result := matchingOrders r f.status
  let sorted := sortByCreatedAtDesc result
  let page := pageOrDefault f.page
  let pageSize := pageSizeOrDefault f.pageSize
  let offset := (page - 1) * pageSize
  (sorted.drop offset.toNat).take pageSize.toNat

/-- StoredResponse from `ports/idempotency.go`: status code, body bytes
(modelled as `String`) and correlated order id. -/
structure StoredResponse where
  statusCode : Int
  body : String
  orderID : String
deriving DecidableEq, Repr

/-- State of an idempotency store keyed by the client-supplied key. -/
abbrev IdemState := List (String × StoredResponse)

/-- Store.Get of the in-memory idempotency store: `none` is the sentinel
"absent" value (a nil pointer with a nil error in Go), never an error. -/
def memStoreGet (s : IdemState) (k : String) : Option StoredResponse :=
  mapLookup s k

/-- Store.Save of the in-memory idempotency store
(`idempotency/memory/store.go`): "stores or overwrites the response for a
key" — an unconditional map write, always a nil error. -/
def memStoreSave (s : IdemState) (k : String) (r : StoredResponse) : IdemState :=
  mapInsert s k r

/-- Store.Get of the postgres idempotency store: a `SELECT` by primary key;
`none` models the `pgx.ErrNoRows` case mapped to `(nil, nil)`. -/
def pgStoreGet (s : IdemState) (k : String) : Option StoredResponse :=
  mapLookup s k

/-- Store.Save of the postgres idempotency store:
`INSERT … ON CONFLICT (key) DO NOTHING` — a no-op when the key is already
present, otherwise a fresh row; always a nil error. -/
def pgStoreSave (s : IdemState) (k : String) (r : StoredResponse) : IdemState :=
  if (mapLookup s k).isSome then s else mapInsert s k r

/-- CreateOrderInput from `app/service.go`. -/
structure CreateOrderInput where
  customerEmail : String
  amountCents : Int
deriving DecidableEq, Repr

/-- Errors produced by Service.CreateOrder. `validation` models the error
returned by `order.Validate()`, `storeFailed` the error passed through from
`s.repo.Create`, and `publishFailed` the wrapping
`fmt.Errorf("order saved but failed to publish event: %w", err)`. -/
inductive CreateErr where
  | validation (msg : String)
  | storeFailed (msg : String)
  | publishFailed (inner : String)
deriving DecidableEq, Repr

/-- Model of `errors.Unwrap` on the errors Service.CreateOrder returns: only
the publish failure is built with `%w`, so only it unwraps to an inner
error. -/
def CreateErr.unwrap : CreateErr → Option String
  | .publishFailed e => some e
  | _ => none

/-- The error strings `err.Error()` produces for a `CreateErr`, used by the
HTTP handler's `writeError(w, http.StatusBadRequest, err.Error())`. -/
def errMessage : CreateErr → String
  | .validation msg => msg
  | .storeFailed msg => msg
  | .publishFailed e => "order saved but failed to publish event: " ++ e

/-- The order literal Service.CreateOrder constructs: fresh id, input fields,
pending status, both timestamps `time.Now().UTC()` (modelled as one `now`). -/
def mkOrder (input : CreateOrderInput) (orderID : String) (now : Nat) : Order :=
  { id := orderID
    customerEmail := input.customerEmail
    amountCents := input.amountCents
    status := .pending
    createdAt := now
    updatedAt := now }

/-- Service.CreateOrder from `app/service.go`, operating on the in-memory
repository state. `orderID` is the value produced by `generateOrderID`
(crypto-random in Go, hence a parameter); `createErr` is the outcome of the
wired store's `Create` call (`none` = nil error; the in-memory `Create` always
returns nil, the test mocks and the postgres store may fail), and
`publishErr` the outcome of `events.PublishOrderCreated`. Returns the new
repository state together with Go's `(*domain.Order, error)` pair. On a
validation or store error nothing is persisted and no order is returned; on a
publish failure the already-persisted order is returned together with the
wrapped error — it is not rolled back. -/
def createOrder (repo : RepoState) (input : CreateOrderInput) (orderID : String)
    (now : Nat) (createErr : Option String) (publishErr : Option String) :
    RepoState × Option Order × Option CreateErr :=
  let order := mkOrder input orderID now
  match order.validate with
  | some msg => (repo, none, some (.validation msg))
  | none =>
    match createErr with
    | some e => (repo, none, some (.storeFailed e))
    | none =>
      let repo' := memCreate repo order
      match publishErr with
      | some e => (repo', some order, some (.publishFailed e))
      | none => (repo', some order, none)

/-- Errors produced by Service.CancelOrder: `notFound` models
`ports.ErrNotFound` from `GetByID`/`UpdateStatus`, `illegalTransition st` the
`fmt.Errorf("cannot cancel order in status %s", order.Status)` returned for a
non-pending order (the spec's `IllegalTransitionError`). -/
inductive CancelErr where
  | notFound
  | illegalTransition (st : OrderStatus)
deriving DecidableEq, Repr

/-- Service.CancelOrder from `app/service.go`: fetch the order, reject any
status other than pending without touching the store, otherwise update the
status to canceled and return a copy with status canceled and refreshed
`updatedAt`. Returns the (possibly updated) repository state and Go's
`(*domain.Order, error)` pair as an `Except`. -/
def cancelOrder (repo : RepoState) (id : String) (now : Nat) :
    RepoState × Except CancelErr Order :=
  match memGetByID repo id with
  | none => (repo, .error .notFound)
  | some o =>
    if o.status ≠ OrderStatus.pending then
      (repo, .error (.illegalTransition o.status))
    else
      match memUpdateStatus repo id .canceled now with
      | none => (repo, .error .notFound)
      | some repo' =>
          (repo', .ok { o with status := .canceled, updatedAt := now })

/-- HTTP response as the handler produces it: status code and body bytes
(headers are not modelled; the claims compare status and body). -/
structure HttpResponse where
  status : Int
  body : String
deriving DecidableEq, Repr

/-- writeError from `adapters/http/handlers.go`: a JSON error envelope. -/
def writeError (status : Int) (msg : String) : HttpResponse :=
  { status := status, body := "\x7b\"error\":\"" ++ msg ++ "\"\x7d" }

/-- The body `json.Marshal(map[string]any{"order": order})` produces for a
created order, with the `Nat`-modelled timestamps rendered as numbers. The
encoding is deterministic and injective in the order's fields, which is what
the byte-identical-replay claims rely on. -/
def orderJson (o : Order) : String :=
  "\x7b\"order\":\x7b\"id\":\"" ++ o.id ++
  "\",\"customer_email\":\"" ++ o.customerEmail ++
  "\",\"amount_cents\":" ++ toString o.amountCents ++
  ",\"status\":\"" ++ statusString o.status ++
  "\",\"created_at\":" ++ toString o.createdAt ++
  ",\"updated_at\":" ++ toString o.updatedAt ++ "\x7d\x7d"

/-- Per-request inputs of Handler.createOrder: the raw `Idempotency-Key`
header, the decoded payload (`none` models a JSON decode failure), and the
external outcomes threaded through to `createOrder`. -/
structure GuardRequest where
  idemKey : String
  payload : Option CreateOrderInput
  orderID : String
  now : Nat
  createErr : Option String
  publishErr : Option String

/-- Handler.createOrder from `adapters/http/handlers.go` — the Idempotency
Guard, wired (as in `cmd/api/main.go`) to the postgres idempotency store and
an order repository. Flow: require a non-empty trimmed key; replay a stored
response verbatim on a hit; otherwise decode the payload, run the command
pipeline, and on a nil error save the 202 response under the key before
returning it. On ANY non-nil pipeline error — including the publish-failure
case, where the order is already persisted — the handler returns a 400 error
response and saves nothing. Returns the new idempotency-store state, the new
repository state, and the response written to the client. -/
def handlerCreateOrder (idem : IdemState) (repo : RepoState)
    (req : GuardRequest) : IdemState × RepoState × HttpResponse :=
  let key := trimSpace req.idemKey
  if key = "" then
    (idem, repo, writeError 400 "Idempotency-Key header required")
  else
    match pgStoreGet idem key with
    | some stored =>
        (idem, repo, { status := stored.statusCode, body := stored.body })
    | none =>
      match req.payload with
      | none => (idem, repo, writeError 400 "invalid JSON payload")
      | some payload =>
        match createOrder repo payload req.orderID req.now req.createErr
            req.publishErr with
        | (repo', _, some e) => (idem, repo', writeError 400 (errMessage e))
        | (repo', some order, none) =>
            let body := orderJson order
            let stored : StoredResponse :=
              { statusCode := 202, body := body, orderID := order.id }
            (pgStoreSave idem key stored, repo', { status := 202, body := body })
        | (repo', none, none) =>
            -- Unreachable: `createOrder` never returns a nil order with a
            -- nil error; the branch only makes the match total.
            (idem, repo', writeError 400 "")

/-- Sample order used to instantiate witnesses on concrete inputs. -/
def sampleOrder (id : String) (t : Nat) (st : OrderStatus) : Order :=
  { id := id
    customerEmail := "a@b.com"
    amountCents := 500
    status := st
    createdAt := t
    updatedAt := t }

/-- Guard request used in the C3 scenario: fresh key, valid payload, all
collaborators succeeding. -/
def c3rq1 : GuardRequest :=
  { idemKey := "K1"
    payload := some ⟨"a@b.com", 500⟩
    orderID := "id1"
    now := 1
    createErr := none
    publishErr := none }

/-- Retry of `c3rq1`: same key, fresh generated order id. -/
def c3rq2 : GuardRequest :=
  { idemKey := "K1"
    payload := some ⟨"a@b.com", 500⟩
    orderID := "id2"
    now := 2
    createErr := none
    publishErr := none }

/-- Variant of `c3rq1` whose publish fails. -/
def c3failrq1 : GuardRequest :=
  { idemKey := "K1"
    payload := some ⟨"a@b.com", 500⟩
    orderID := "id1"
    now := 1
    createErr := none
    publishErr := some "kafka unavailable" }

/-- Retry of `c3failrq1` with the publisher back up. -/
def c3failrq2 : GuardRequest :=
  { idemKey := "K1"
    payload := some ⟨"a@b.com", 500⟩
    orderID := "id2"
    now := 2
    createErr := none
    publishErr := none }

/-- Idempotency state holding a stored response for key "K1". -/
def c3idem0 : IdemState := [("K1", { statusCode := 202, body := "B", orderID := "id0" })]

/-- Guard request reusing key "K1" against `c3idem0`. -/
def c3reqHit : GuardRequest :=
  { idemKey := "K1"
    payload := none
    orderID := "idX"
    now := 3
    createErr := none
    publishErr := none }

/-- Repository holding three pending orders created at instants 1, 2, 3. -/
def sampleRepo3 : RepoState :=
  [("a", sampleOrder "a" 1 .pending), ("b", sampleOrder "b" 2 .pending),
    ("c", sampleOrder "c" 3 .pending)]

/-- Second order sharing the identifier "dup" with `sampleOrder "dup" 1`. -/
def c9order2 : Order :=
  { id := "dup"
    customerEmail := "c@d.com"
    amountCents := 700
    status := .pending
    createdAt := 2
    updatedAt := 2 }

theorem mapLookup_mapInsert_self {α : Type} (m : List (String × α)) (k : String)
    (v : α) : mapLookup (mapInsert m k v) k = some v := by
  induction m with
  | nil => simp [mapInsert, mapLookup]
  | cons p rest ih =>
      by_cases h : p.1 = k
      · simp [mapInsert, mapLookup, h]
      · simp [mapInsert, mapLookup, h, ih]

theorem mapInsert_length_le {α : Type} (m : List (String × α)) (k : String)
    (v : α) : (mapInsert m k v).length ≤ m.length + 1 := by
  induction m with
  | nil => simp [mapInsert]
  | cons p rest ih =>
      by_cases h : p.1 = k
      · simp [mapInsert, h]
      · simp only [mapInsert, if_neg h, List.length_cons]
        omega

theorem countKey_of_mapLookup_none {α : Type} (m : List (String × α))
    (k : String) (h : mapLookup m k = none) : countKey m k = 0 := by
  induction m with
  | nil => simp [countKey]
  | cons p rest ih =>
      by_cases hk : p.1 = k
      · simp [mapLookup, hk] at h
      · simp only [mapLookup, if_neg hk] at h
        simp [countKey, List.filter, hk] at ih ⊢
        simpa [countKey, List.filter] using ih h

theorem countKey_mapInsert_self {α : Type} (m : List (String × α)) (k : String)
    (v : α) : countKey (mapInsert m k v) k = max 1 (countKey m k) := by
  induction m with
  | nil => simp [mapInsert, countKey]
  | cons p rest ih =>
      by_cases h : p.1 = k
      · simp [mapInsert, h, countKey, List.filter]
      · simp only [mapInsert, if_neg h]
        simp [countKey, List.filter, h] at ih ⊢
        omega

theorem insertByCreatedAt_length (o : Order) (l : List Order) :
    (insertByCreatedAt o l).length = l.length + 1 := by
  induction l with
  | nil => simp [insertByCreatedAt]
  | cons x xs ih =>
      by_cases h : o.createdAt ≤ x.createdAt
      · simp [insertByCreatedAt, h]
      · simp [insertByCreatedAt, h, ih]

theorem sortByCreatedAt_length (l : List Order) :
    (sortByCreatedAt l).length = l.length := by
  induction l with
  | nil => rfl
  | cons x xs ih => simp [sortByCreatedAt, insertByCreatedAt_length, ih]

/-- First call of the Guard on a fresh key with a fully successful pipeline:
it persists the order, saves the 202 response under the key and returns it. -/
theorem guardFirstCallSuccess (idem : IdemState) (repo : RepoState)
    (rq1 : GuardRequest) (p : CreateOrderInput)
    (h1 : trimSpace rq1.idemKey ≠ "")
    (h3 : pgStoreGet idem (trimSpace rq1.idemKey) = none)
    (hp : rq1.payload = some p)
    (hval : (mkOrder p rq1.orderID rq1.now).validate = none)
    (hc : rq1.createErr = none)
    (hpub : rq1.publishErr = none) :
    handlerCreateOrder idem repo rq1 =
      (mapInsert idem (trimSpace rq1.idemKey)
          { statusCode := 202, body := orderJson (mkOrder p rq1.orderID rq1.now),
            orderID := (mkOrder p rq1.orderID rq1.now).id },
        memCreate repo (mkOrder p rq1.orderID rq1.now),
        { status := 202, body := orderJson (mkOrder p rq1.orderID rq1.now) }) := by
  have h3' : mapLookup idem (trimSpace rq1.idemKey) = none := h3
  simp only [handlerCreateOrder, if_neg h1, h3, hp, createOrder, hval, hc, hpub,
    pgStoreSave, h3', Option.isSome_none, Bool.false_eq_true, if_false]

/-- C1: for every input that passes validation, when the store's Create
succeeds (`createErr = none`) and the publisher then fails with `e`,
Service.CreateOrder returns the created pending order together with the
wrapping error — the order is persisted in the new repository state (not
rolled back) and unwrapping the returned error yields the publisher's
underlying error `e`. -/
theorem c1_create_order_publish_failure (repo : RepoState)
    (input : CreateOrderInput) (orderID : String) (now : Nat) (e : String)
    (hval : (mkOrder input orderID now).validate = none) :
    createOrder repo input orderID now none (some e) =
      (memCreate repo (mkOrder input orderID now),
        some (mkOrder input orderID now),
        some (CreateErr.publishFailed e))
    ∧ (mkOrder input orderID now).status = OrderStatus.pending
    ∧ memGetByID (memCreate repo (mkOrder input orderID now)) orderID =
        some (mkOrder input orderID now)
    ∧ CreateErr.unwrap (CreateErr.publishFailed e) = some e := by
  refine ⟨?_, rfl, ?_, rfl⟩
  · simp [createOrder, hval]
  · simpa [memGetByID, memCreate, mkOrder] using
      mapLookup_mapInsert_self repo orderID (mkOrder input orderID now)

/-- Closed instance of `c1_create_order_publish_failure` at a concrete valid
input, a failing publisher and an empty repository. -/
theorem c1_create_order_publish_failure_witness :
    (mkOrder ⟨"a@b.com", 500⟩ "id1" 0).validate = none
    ∧ (createOrder [] ⟨"a@b.com", 500⟩ "id1" 0 none (some "kafka down") =
        (memCreate [] (mkOrder ⟨"a@b.com", 500⟩ "id1" 0),
          some (mkOrder ⟨"a@b.com", 500⟩ "id1" 0),
          some (CreateErr.publishFailed "kafka down"))
      ∧ (mkOrder ⟨"a@b.com", 500⟩ "id1" 0).status = OrderStatus.pending
      ∧ memGetByID (memCreate [] (mkOrder ⟨"a@b.com", 500⟩ "id1" 0)) "id1" =
          some (mkOrder ⟨"a@b.com", 500⟩ "id1" 0)
      ∧ CreateErr.unwrap (CreateErr.publishFailed "kafka down") =
          some "kafka down") :=
  ⟨by decide,
    c1_create_order_publish_failure [] ⟨"a@b.com", 500⟩ "id1" 0 "kafka down"
      (by decide)⟩

/-- C2: evaluation of the Idempotency Guard at the partial-failure input. The
key "K1" is absent, the payload is valid, the store write succeeds and the
publisher fails. The handler persists the order but then treats the non-nil
pipeline error like a total failure: it returns a 400 error response carrying
the wrapped publish error and saves NOTHING under the key — the idempotency
state stays empty, contradicting the spec's step 3 of §4.6 (and the
"publish failure maps to a successful-creation outcome" rule in §7, as well
as the "do not fail the request" comment in `app/service.go`). -/
theorem c2_partial_failure_response_not_saved :
    handlerCreateOrder [] []
      { idemKey := "K1"
        payload := some ⟨"a@b.com", 500⟩
        orderID := "id1"
        now := 1
        createErr := none
        publishErr := some "kafka unavailable" } =
      ([], [("id1", mkOrder ⟨"a@b.com", 500⟩ "id1" 1)],
        writeError 400
          "order saved but failed to publish event: kafka unavailable") := by
  decide

/-- C3 fails as stated: when the first call with key "K1" suffers a publish
failure, no response is saved, so the second call with the same key
re-executes the pipeline — the two sequential calls return different
responses and two orders end up created for that one key. -/
theorem c3_two_calls_two_orders_counterexample :
    (handlerCreateOrder (handlerCreateOrder [] [] c3failrq1).1
        (handlerCreateOrder [] [] c3failrq1).2.1 c3failrq2).2.1.length = 2
    ∧ (handlerCreateOrder [] [] c3failrq1).2.2 ≠
        (handlerCreateOrder (handlerCreateOrder [] [] c3failrq1).1
          (handlerCreateOrder [] [] c3failrq1).2.1 c3failrq2).2.2 := by
  decide

/-- C3 (amended): for every key already present, the Guard returns the stored
status code and body verbatim and does not run the Command Pipeline (states
unchanged); and two sequential Guard calls with the same fresh key whose
first call fully succeeds (valid payload, store write and publish both
succeed) return byte-identical responses, with the second call changing no
state and the order store growing by at most one order. When the first call's
publish fails, no record is saved and a second call re-executes the pipeline
(see the counterexample). -/
theorem c3_replay_verbatim_and_sequential_idempotence :
    (∀ (idem : IdemState) (repo : RepoState) (req : GuardRequest)
        (stored : StoredResponse),
        trimSpace req.idemKey ≠ "" →
        pgStoreGet idem (trimSpace req.idemKey) = some stored →
        handlerCreateOrder idem repo req =
          (idem, repo, { status := stored.statusCode, body := stored.body }))
    ∧ (∀ (idem : IdemState) (repo : RepoState) (rq1 rq2 : GuardRequest)
        (p : CreateOrderInput),
        trimSpace rq1.idemKey ≠ "" →
        trimSpace rq2.idemKey = trimSpace rq1.idemKey →
        pgStoreGet idem (trimSpace rq1.idemKey) = none →
        rq1.payload = some p →
        (mkOrder p rq1.orderID rq1.now).validate = none →
        rq1.createErr = none →
        rq1.publishErr = none →
        handlerCreateOrder (handlerCreateOrder idem repo rq1).1
            (handlerCreateOrder idem repo rq1).2.1 rq2 =
          ((handlerCreateOrder idem repo rq1).1,
            (handlerCreateOrder idem repo rq1).2.1,
            (handlerCreateOrder idem repo rq1).2.2)
        ∧ (handlerCreateOrder idem repo rq1).2.1.length ≤ repo.length + 1) := by
  constructor
  · intro idem repo req stored h1 h2
    simp only [handlerCreateOrder, if_neg h1, h2]
  · intro idem repo rq1 rq2 p h1 h2 h3 hp hval hc hpub
    have e1 := guardFirstCallSuccess idem repo rq1 p h1 h3 hp hval hc hpub
    rw [e1]
    constructor
    · have hhit : pgStoreGet
          (mapInsert idem (trimSpace rq1.idemKey)
            { statusCode := 202, body := orderJson (mkOrder p rq1.orderID rq1.now),
              orderID := (mkOrder p rq1.orderID rq1.now).id })
          (trimSpace rq2.idemKey) =
          some { statusCode := 202, body := orderJson (mkOrder p rq1.orderID rq1.now),
                 orderID := (mkOrder p rq1.orderID rq1.now).id } := by
        rw [h2]
        exact mapLookup_mapInsert_self idem (trimSpace rq1.idemKey) _
      have h1' : trimSpace rq2.idemKey ≠ "" := by rw [h2]; exact h1
      simp only [handlerCreateOrder, if_neg h1', hhit]
    · exact mapInsert_length_le repo _ _

/-- Closed instance of the C3 theorem: a replay of the stored "K1" response
against `c3idem0`, and the fully successful first call of `c3rq1` followed by
the retry `c3rq2`. -/
theorem c3_replay_verbatim_and_sequential_idempotence_witness :
    trimSpace "K1" ≠ ""
    ∧ handlerCreateOrder c3idem0 [] c3reqHit =
        (c3idem0, [], { status := 202, body := "B" })
    ∧ (handlerCreateOrder (handlerCreateOrder [] [] c3rq1).1
          (handlerCreateOrder [] [] c3rq1).2.1 c3rq2 =
        ((handlerCreateOrder [] [] c3rq1).1,
          (handlerCreateOrder [] [] c3rq1).2.1,
          (handlerCreateOrder [] [] c3rq1).2.2)
      ∧ (handlerCreateOrder [] [] c3rq1).2.1.length ≤ 0 + 1) :=
  ⟨by decide,
    c3_replay_verbatim_and_sequential_idempotence.1 c3idem0 [] c3reqHit
      ⟨202, "B", "id0"⟩ (by decide) (by decide),
    c3_replay_verbatim_and_sequential_idempotence.2 [] [] c3rq1 c3rq2
      ⟨"a@b.com", 500⟩ (by decide) (by decide) (by decide) (by decide)
      (by decide) (by decide) (by decide)⟩

/-- C4 fails as stated on the in-memory idempotency store: after
`Save(k, r1); Save(k, r2)` a `Get(k)` returns r2, not r1 — the second save
overwrites (`Store.Save` doc: "stores or overwrites"). -/
theorem c4_mem_save_overwrites_counterexample :
    memStoreGet (memStoreSave (memStoreSave [] "k" ⟨202, "b1", "o1"⟩) "k"
        ⟨500, "b2", "o2"⟩) "k" = some ⟨500, "b2", "o2"⟩
    ∧ (⟨500, "b2", "o2"⟩ : StoredResponse) ≠ ⟨202, "b1", "o1"⟩ := by decide

/-- C4 (amended): for a key absent from the store, saving r1 then r2 leaves
exactly one record for the key and neither save errors (both Save
implementations are total with a nil Go error). On the postgres store
(`ON CONFLICT DO NOTHING`) the first writer wins: Get returns r1. On the
in-memory store the second save overwrites: Get returns r2. -/
theorem c4_double_save_one_record (s : IdemState) (k : String)
    (r1 r2 : StoredResponse) (habs : mapLookup s k = none) :
    (pgStoreGet (pgStoreSave (pgStoreSave s k r1) k r2) k = some r1
      ∧ countKey (pgStoreSave (pgStoreSave s k r1) k r2) k = 1)
    ∧ (memStoreGet (memStoreSave (memStoreSave s k r1) k r2) k = some r2
      ∧ countKey (memStoreSave (memStoreSave s k r1) k r2) k = 1) := by
  have hsave1 : pgStoreSave s k r1 = mapInsert s k r1 := by
    simp [pgStoreSave, habs]
  have hhit : mapLookup (mapInsert s k r1) k = some r1 :=
    mapLookup_mapInsert_self s k r1
  have hsave2 : pgStoreSave (mapInsert s k r1) k r2 = mapInsert s k r1 := by
    simp [pgStoreSave, hhit]
  have hcount0 : countKey s k = 0 := countKey_of_mapLookup_none s k habs
  refine ⟨⟨?_, ?_⟩, ?_, ?_⟩
  · rw [hsave1, hsave2]
    exact hhit
  · rw [hsave1, hsave2, countKey_mapInsert_self, hcount0]
    decide
  · exact mapLookup_mapInsert_self _ k r2
  · show countKey (mapInsert (mapInsert s k r1) k r2) k = 1
    rw [countKey_mapInsert_self, countKey_mapInsert_self, hcount0]
    decide

/-- Closed instance of the C4 theorem at an empty store, key "k" and two
distinct responses. -/
theorem c4_double_save_one_record_witness :
    mapLookup ([] : IdemState) "k" = none
    ∧ ((pgStoreGet (pgStoreSave (pgStoreSave [] "k" ⟨202, "b1", "o1"⟩) "k"
          ⟨500, "b2", "o2"⟩) "k" = some ⟨202, "b1", "o1"⟩
        ∧ countKey (pgStoreSave (pgStoreSave [] "k" ⟨202, "b1", "o1"⟩) "k"
            ⟨500, "b2", "o2"⟩) "k" = 1)
      ∧ (memStoreGet (memStoreSave (memStoreSave [] "k" ⟨202, "b1", "o1"⟩) "k"
          ⟨500, "b2", "o2"⟩) "k" = some ⟨500, "b2", "o2"⟩
        ∧ countKey (memStoreSave (memStoreSave [] "k" ⟨202, "b1", "o1"⟩) "k"
            ⟨500, "b2", "o2"⟩) "k" = 1)) :=
  ⟨by decide, c4_double_save_one_record [] "k" ⟨202, "b1", "o1"⟩
    ⟨500, "b2", "o2"⟩ (by decide)⟩

/-- C5 fails as stated: on an order in the terminal status `completed`, a
direct Repository.UpdateStatus call to `processing` succeeds (no error) and
changes the persisted status — the store does not reject mutations of
terminal orders. -/
theorem c5_update_status_mutates_terminal_counterexample :
    (sampleOrder "a" 1 .completed).isTerminal = true
    ∧ memUpdateStatus [("a", sampleOrder "a" 1 .completed)] "a" .processing 5 =
        some [("a",
          { id := "a", customerEmail := "a@b.com", amountCents := 500,
            status := .processing, createdAt := 1, updatedAt := 5 })] := by
  decide

/-- C5 (amended): once an order's status is terminal, CancelOrder is rejected
with the illegal-transition error and leaves the store unchanged; but
Repository.UpdateStatus does not enforce the terminal-state invariant — on
the same terminal order it succeeds and overwrites the status with any new
value (the spec's §4.2 places that responsibility on the caller). -/
theorem c5_terminal_enforced_only_by_cancel (repo : RepoState) (id : String)
    (o : Order) (now : Nat) (st : OrderStatus)
    (hfound : memGetByID repo id = some o) (hterm : o.isTerminal = true) :
    cancelOrder repo id now =
      (repo, .error (.illegalTransition o.status))
    ∧ memUpdateStatus repo id st now =
        some (mapInsert repo id { o with status := st, updatedAt := now }) := by
  have hfound' : mapLookup repo id = some o := hfound
  have hnp : o.status ≠ OrderStatus.pending := by
    cases hst : o.status <;> simp_all [Order.isTerminal]
  constructor
  · simp only [cancelOrder, memGetByID, hfound', if_pos hnp]
  · simp only [memUpdateStatus, hfound']

/-- Closed instance of the C5 theorem on a canceled order, attempting a
direct status overwrite to `completed`. -/
theorem c5_terminal_enforced_only_by_cancel_witness :
    memGetByID [("a", sampleOrder "a" 1 .canceled)] "a" =
        some (sampleOrder "a" 1 .canceled)
    ∧ (sampleOrder "a" 1 .canceled).isTerminal = true
    ∧ (cancelOrder [("a", sampleOrder "a" 1 .canceled)] "a" 5 =
        ([("a", sampleOrder "a" 1 .canceled)],
          .error (.illegalTransition (sampleOrder "a" 1 .canceled).status))
      ∧ memUpdateStatus [("a", sampleOrder "a" 1 .canceled)] "a" .completed 5 =
          some (mapInsert [("a", sampleOrder "a" 1 .canceled)] "a"
            { sampleOrder "a" 1 .canceled with
                status := .completed, updatedAt := 5 })) :=
  ⟨by decide, by decide,
    c5_terminal_enforced_only_by_cancel [("a", sampleOrder "a" 1 .canceled)]
      "a" (sampleOrder "a" 1 .canceled) 5 .completed (by decide) (by decide)⟩

/-- C6: for a stored order, CancelOrder in any non-pending status (processing
included) returns the illegal-transition error and leaves the store
untouched; in pending status it succeeds, the persisted and returned order
becoming canceled with refreshed `updatedAt`. -/
theorem c6_cancel_only_from_pending (repo : RepoState) (id : String)
    (o : Order) (now : Nat) (hfound : memGetByID repo id = some o) :
    (o.status ≠ OrderStatus.pending →
      cancelOrder repo id now =
        (repo, .error (.illegalTransition o.status)))
    ∧ (o.status = OrderStatus.pending →
      cancelOrder repo id now =
        (mapInsert repo id { o with status := .canceled, updatedAt := now },
          .ok { o with status := .canceled, updatedAt := now })) := by
  have hfound' : mapLookup repo id = some o := hfound
  constructor
  · intro hnp
    simp only [cancelOrder, memGetByID, hfound', if_pos hnp]
  · intro hp
    have hnn : ¬ o.status ≠ OrderStatus.pending := fun h => h hp
    simp only [cancelOrder, memGetByID, hfound', if_neg hnn, memUpdateStatus]

/-- Closed instance of the C6 theorem: rejection on a processing order and
success on a pending order. -/
theorem c6_cancel_only_from_pending_witness :
    memGetByID [("a", sampleOrder "a" 1 .processing)] "a" =
        some (sampleOrder "a" 1 .processing)
    ∧ cancelOrder [("a", sampleOrder "a" 1 .processing)] "a" 5 =
        ([("a", sampleOrder "a" 1 .processing)],
          .error (.illegalTransition (sampleOrder "a" 1 .processing).status))
    ∧ cancelOrder [("b", sampleOrder "b" 1 .pending)] "b" 5 =
        (mapInsert [("b", sampleOrder "b" 1 .pending)] "b"
            { sampleOrder "b" 1 .pending with status := .canceled, updatedAt := 5 },
          .ok { sampleOrder "b" 1 .pending with status := .canceled, updatedAt := 5 }) :=
  ⟨by decide,
    (c6_cancel_only_from_pending [("a", sampleOrder "a" 1 .processing)] "a"
      (sampleOrder "a" 1 .processing) 5 (by decide)).1 (by decide),
    (c6_cancel_only_from_pending [("b", sampleOrder "b" 1 .pending)] "b"
      (sampleOrder "b" 1 .pending) 5 (by decide)).2 (by decide)⟩

/-- C7: evaluation showing the in-memory Repository.List returns orders by
`created_at` ASCENDING (oldest first): on a store with orders created at 1
and 2 it returns the older order first, while the postgres List
(`ORDER BY created_at DESC`, asserted newest-first by the repository's own
integration test) returns the newer order first — the in-memory sort
comparator is inverted relative to the claimed (and durable) ordering. -/
theorem c7_mem_list_ascending_divergence :
    memList [("o1", sampleOrder "o1" 1 .pending),
        ("o2", sampleOrder "o2" 2 .pending)]
        { status := none, page := 0, pageSize := 0 } =
      [sampleOrder "o1" 1 .pending, sampleOrder "o2" 2 .pending]
    ∧ pgList [("o1", sampleOrder "o1" 1 .pending),
        ("o2", sampleOrder "o2" 2 .pending)]
        { status := none, page := 0, pageSize := 0 } =
      [sampleOrder "o2" 2 .pending, sampleOrder "o1" 1 .pending]
    ∧ (sampleOrder "o1" 1 .pending).createdAt <
        (sampleOrder "o2" 2 .pending).createdAt := by
  decide

/-- C8: for every store state and filter, a page starting at or beyond the
number of matching orders yields the empty list (and the in-memory List never
errors — it is total); with exactly 3 matching orders, page 2 of size 2
yields exactly 1 order, and any page from 3 on with size 2 yields the empty
list. -/
theorem c8_pagination (r : RepoState) (f : ListFilter) :
    ((pageOrDefault f.page - 1) * pageSizeOrDefault f.pageSize ≥
        ((matchingOrders r f.status).length : Int) → memList r f = [])
    ∧ ((matchingOrders r f.status).length = 3 → f.page = 2 → f.pageSize = 2 →
        (memList r f).length = 1)
    ∧ ((matchingOrders r f.status).length = 3 → 3 ≤ f.page → f.pageSize = 2 →
        memList r f = []) := by
  refine ⟨?_, ?_, ?_⟩
  · intro h
    simp only [memList, sortByCreatedAt_length]
    split
    · rfl
    · rename_i hlt
      exact absurd h hlt
  · intro h3 hp hs
    simp only [memList, sortByCreatedAt_length, h3, hp, hs, pageOrDefault,
      pageSizeOrDefault]
    norm_num
    rw [sortByCreatedAt_length, h3]
    decide
  · intro h3 hp hs
    have hsz : pageSizeOrDefault f.pageSize = 2 := by rw [hs]; decide
    have hpage : pageOrDefault f.page = f.page := by
      unfold pageOrDefault
      rw [if_neg (by omega)]
    simp only [memList, sortByCreatedAt_length, h3, hsz, hpage]
    split
    · rfl
    · rename_i hlt
      exfalso
      apply hlt
      omega

/-- Closed instance of the C8 theorem on `sampleRepo3`: page 5 (beyond the
data) is empty, page 2 of size 2 holds exactly 1 order, page 3 is empty. -/
theorem c8_pagination_witness :
    ((pageOrDefault 5 - 1) * pageSizeOrDefault 2 ≥
        ((matchingOrders sampleRepo3 none).length : Int)
      ∧ memList sampleRepo3 { status := none, page := 5, pageSize := 2 } = [])
    ∧ ((matchingOrders sampleRepo3 none).length = 3
      ∧ (memList sampleRepo3 { status := none, page := 2, pageSize := 2 }).length = 1)
    ∧ memList sampleRepo3 { status := none, page := 3, pageSize := 2 } = [] :=
  ⟨⟨by decide, (c8_pagination sampleRepo3 ⟨none, 5, 2⟩).1 (by decide)⟩,
    ⟨by decide, (c8_pagination sampleRepo3 ⟨none, 2, 2⟩).2.1 (by decide) rfl rfl⟩,
    (c8_pagination sampleRepo3 ⟨none, 3, 2⟩).2.2 (by decide) (by decide) rfl⟩

/-- C9 fails as stated: creating a second order under an identifier that
already exists does not fail — the in-memory Create is an unconditional map
write with a nil error — and it replaces the previously stored order rather
than leaving it unchanged. -/
theorem c9_create_no_conflict_counterexample :
    memCreate (memCreate [] (sampleOrder "dup" 1 .pending)) c9order2 =
      [("dup", c9order2)]
    ∧ memGetByID (memCreate (memCreate []
        (sampleOrder "dup" 1 .pending)) c9order2) "dup" = some c9order2
    ∧ c9order2 ≠ sampleOrder "dup" 1 .pending := by decide

/-- C9 (amended): the in-memory Order Store's Create performs no conflict
check: creating an order whose identifier already exists succeeds (the Go
method returns nil unconditionally) and overwrites, so a subsequent GetByID
returns the second order. -/
theorem c9_mem_create_overwrites (repo : RepoState) (o1 o2 : Order)
    (h : o2.id = o1.id) :
    memGetByID (memCreate (memCreate repo o1) o2) o1.id = some o2 := by
  show mapLookup (mapInsert (mapInsert repo o1.id o1) o2.id o2) o1.id = some o2
  rw [h]
  exact mapLookup_mapInsert_self _ _ _

/-- Closed instance of the C9 theorem at the two concrete "dup" orders. -/
theorem c9_mem_create_overwrites_witness :
    c9order2.id = (sampleOrder "dup" 1 .pending).id
    ∧ memGetByID (memCreate (memCreate [] (sampleOrder "dup" 1 .pending))
        c9order2) (sampleOrder "dup" 1 .pending).id = some c9order2 :=
  ⟨by decide,
    c9_mem_create_overwrites [] (sampleOrder "dup" 1 .pending) c9order2
      (by decide)⟩

/-- C10: the in-memory List treats a non-positive page as page 1 and a
non-positive page size as size 20, returning the same (error-free) result as
the explicit defaults instead of failing. -/
theorem c10_default_pagination (r : RepoState) (st : Option OrderStatus)
    (p s : Int) :
    (p ≤ 0 → memList r ⟨st, p, s⟩ = memList r ⟨st, 1, s⟩)
    ∧ (s ≤ 0 → memList r ⟨st, p, s⟩ = memList r ⟨st, p, 20⟩) := by
  constructor
  · intro hp
    simp [memList, pageOrDefault, hp]
  · intro hs
    simp [memList, pageSizeOrDefault, hs]

/-- Closed instance of the C10 theorem at page -1 and page size 0. -/
theorem c10_default_pagination_witness :
    ((-1 : Int) ≤ 0
      ∧ memList sampleRepo3 { status := none, page := -1, pageSize := 5 } =
          memList sampleRepo3 { status := none, page := 1, pageSize := 5 })
    ∧ ((0 : Int) ≤ 0
      ∧ memList sampleRepo3 { status := none, page := 2, pageSize := 0 } =
          memList sampleRepo3 { status := none, page := 2, pageSize := 20 }) :=
  ⟨⟨by decide, (c10_default_pagination sampleRepo3 none (-1) 5).1 (by decide)⟩,
    ⟨by decide, (c10_default_pagination sampleRepo3 none 2 0).2 (by decide)⟩⟩
